import Mathlib

/-!
Shallow embedding of `examples/dqn_atari.py` (keras-rl Atari DQN example).

The script's first-party logic is the `AtariProcessor` class (frame
preprocessing, reward clipping, batch normalization, an optional lazily
created video writer), the command-line driver's weights-path derivation
for test mode, and a fallback GPU-session configuration.  External
library calls (PIL, cv2, numpy) are modelled at the level of their
documented shape/value semantics: image resampling content is modelled
by nearest-neighbour sampling (no claim depends on resampled pixel
values), grayscale conversion by the ITU-R 601-2 luma transform, and
real arithmetic by exact rationals.  Fallible operations (Python
assertions, AttributeError, TypeError) return `Option`.
-/

/-- `INPUT_SHAPE = (84, 84)` from the script (a `(width, height)` pair as
passed to `PIL.Image.resize`). -/
def INPUT_SHAPE : Nat × Nat := (84, 84)

/-- `WINDOW_LENGTH = 4` from the script. -/
def WINDOW_LENGTH : Nat := 4

/-- A numpy ndarray of unsigned 8-bit pixel data: a shape together with a
total indexing function (indices outside the shape are immaterial to the
claims). -/
structure NDArray where
  shape : List Nat
  pix : List Nat → Nat

/-- `ndarray.ndim`: the number of axes. -/
def NDArray.ndim (a : NDArray) : Nat := a.shape.length

/-- `ndarray.astype('uint8')`: numpy casts by wrapping modulo 2^8. -/
def NDArray.astypeUint8 (a : NDArray) : NDArray :=
  { a with pix := fun idx => a.pix idx % 256 }

/-- A PIL RGB image: width, height and an (x, y)-indexed RGB pixel map. -/
structure PILImage where
  width : Nat
  height : Nat
  px : Nat → Nat → Nat × Nat × Nat

/-- `PIL.Image.fromarray` on a `(height, width, channel)` uint8 array. -/
def Image.fromarray (a : NDArray) : PILImage :=
  { width := a.shape.getD 1 0
    height := a.shape.getD 0 0
    px := fun x y => (a.pix [y, x, 0], a.pix [y, x, 1], a.pix [y, x, 2]) }

/-- `img.resize(size)` with `size = (width, height)`.  The output raster is
exactly `size`; pixel content is modelled by nearest-neighbour sampling
(the claims do not depend on the resampling filter). -/
def PILImage.resize (img : PILImage) (size : Nat × Nat) : PILImage :=
  { width := size.1
    height := size.2
    px := fun x y => img.px (x * img.width / size.1) (y * img.height / size.2) }

/-- A single-channel (`'L'` mode) PIL image. -/
structure PILImageL where
  width : Nat
  height : Nat
  px : Nat → Nat → Nat

/-- `img.convert('L')`: RGB to grayscale by the ITU-R 601-2 luma transform
`L = (R*299 + G*587 + B*114) / 1000`. -/
def PILImage.convertL (img : PILImage) : PILImageL :=
  { width := img.width
    height := img.height
    px := fun x y =>
      let c := img.px x y
      (c.1 * 299 + c.2.1 * 587 + c.2.2 * 114) / 1000 }

/-- `np.array` on an `'L'`-mode image: shape `(height, width)`. -/
def npArrayOfL (img : PILImageL) : NDArray :=
  { shape := [img.height, img.width]
    pix := fun idx =>
      match idx with
      | [i, j] => img.px j i
      | _ => 0 }

/-- `np.array` on an RGB image: shape `(height, width, 3)`. -/
def npArrayOfRGB (img : PILImage) : NDArray :=
  { shape := [img.height, img.width, 3]
    pix := fun idx =>
      match idx with
      | [i, j, 0] => (img.px j i).1
      | [i, j, 1] => (img.px j i).2.1
      | [i, j, 2] => (img.px j i).2.2
      | _ => 0 }

/-- `cv2.resize(a, size)` with `size = (width, height)`: output shape is
`(height, width, channels...)`; content by nearest-neighbour sampling. -/
def cv2_resize (a : NDArray) (size : Nat × Nat) : NDArray :=
  { shape := [size.2, size.1] ++ a.shape.drop 2
    pix := fun idx =>
      match idx with
      | i :: j :: rest =>
          a.pix ((i * a.shape.getD 0 0 / size.2) :: (j * a.shape.getD 1 0 / size.1) :: rest)
      | _ => 0 }

/-- `cv2.VideoWriter_fourcc('P', 'I', 'M', '1')`, modelled by its four
character codes. -/
def VideoWriter_fourcc : String := "PIM1"

/-- A `cv2.VideoWriter`: its construction parameters, the number of frames
written so far, and whether `release()` has been called. -/
structure VideoWriter where
  filename : String
  fourcc : String
  fps : Nat
  frameSize : Nat × Nat
  frames : Nat
  released : Bool
  deriving DecidableEq, Repr

/-- `cv2.VideoWriter(filename, fourcc, fps, frameSize)`: a fresh, open
writer with no frames written. -/
def cv2_VideoWriter (filename : String) (fourcc : String) (fps : Nat)
    (frameSize : Nat × Nat) : VideoWriter :=
  { filename := filename, fourcc := fourcc, fps := fps, frameSize := frameSize
    frames := 0, released := false }

/-- `writer.write(frame)`: appends a frame when the writer is open; writing
to a released writer is a silent no-op (cv2 does not reopen it). -/
def VideoWriter.write (w : VideoWriter) : VideoWriter :=
  if w.released then w else { w with frames := w.frames + 1 }

/-- `writer.release()`. -/
def VideoWriter.release (w : VideoWriter) : VideoWriter :=
  { w with released := true }

/-- The state of the `self.writer` attribute of `AtariProcessor`:
`absent` when the attribute was never set (`show=False` constructor path),
`noneYet` for the Python value `None`, `created w` once a `cv2.VideoWriter`
has been constructed. -/
inductive WriterField where
  | absent
  | noneYet
  | created (w : VideoWriter)
  deriving DecidableEq, Repr

/-- `os.path.join` (posix semantics) for the paths the script builds. -/
def os_path_join (a b : String) : String :=
  if b.startsWith "/" then b
  else if a = "" then b
  else if a.endsWith "/" then a ++ b
  else a ++ "/" ++ b

/-- The mutable state of an `AtariProcessor` instance.  `writersCreated`
is a ghost counter of how many `cv2.VideoWriter` objects have been
constructed by this instance. -/
structure AtariProcessor where
  «show» : Bool
  out_file : Option String
  writer : WriterField
  writersCreated : Nat
  deriving DecidableEq, Repr

/-- `AtariProcessor.__init__(show, output_dir)`.  When `show` is true it
evaluates `os.path.join(output_dir, "atari_playback.avi")`, which raises
`TypeError` when `output_dir` is `None` (modelled by `none`); otherwise it
sets no attribute beyond `self.show`. -/
def AtariProcessor.init (s : Bool) (output_dir : Option String) :
    Option AtariProcessor :=
  if s then
    match output_dir with
    | none => none
    | some d =>
        some { «show» := true
               out_file := some (os_path_join d "atari_playback.avi")
               writer := .noneYet
               writersCreated := 0 }
  else
    some { «show» := false, out_file := none, writer := .absent
           writersCreated := 0 }

/-- The `if self.show:` block of `process_observation`: resize the colour
frame to `(640, 480)`, lazily construct the writer on first use, and write
the frame.  Accessing `self.writer` or `self.out_file` when the attribute
was never set raises `AttributeError` (modelled by `none`). -/
def AtariProcessor.videoStep (p : AtariProcessor) (img : PILImage) :
    Option AtariProcessor :=
  if p.«show» then
    let po := cv2_resize (npArrayOfRGB img) (640, 480)
    match p.writer with
    | .absent => none
    | .created w => some { p with writer := .created w.write }
    | .noneYet =>
        match p.out_file with
        | none => none
        | some f =>
            let codec := VideoWriter_fourcc
            let w := cv2_VideoWriter f codec 25
              (po.shape.getD 1 0, po.shape.getD 0 0)
            some { p with writer := .created w.write
                          writersCreated := p.writersCreated + 1 }
  else some p

/-- `AtariProcessor.process_observation`.  The entry assertion
`observation.ndim == 3` and the exit assertion
`processed_observation.shape == INPUT_SHAPE` fail fast (modelled by
`none`).  Returns the updated processor state together with the processed
frame `processed_observation.astype('uint8')`. -/
def AtariProcessor.process_observation (p : AtariProcessor)
    (observation : NDArray) : Option (AtariProcessor × NDArray) :=
  if observation.ndim = 3 then
    let img := Image.fromarray observation
    let img_p := (img.resize INPUT_SHAPE).convertL
    let processed_observation := npArrayOfL img_p
    match p.videoStep img with
    | none => none
    | some p' =>
        if processed_observation.shape = [INPUT_SHAPE.1, INPUT_SHAPE.2] then
          some (p', processed_observation.astypeUint8)
        else none
  else none

/-- A numpy array of rational values, the model of the `float32` batch
(real arithmetic is modelled exactly by `ℚ`). -/
structure QArray where
  shape : List Nat
  pix : List Nat → ℚ

/-- `AtariProcessor.process_state_batch`:
`processed_batch = batch.astype('float32') / 255.`. -/
def process_state_batch (batch : NDArray) : QArray :=
  { shape := batch.shape
    pix := fun idx => (batch.pix idx : ℚ) / 255 }

/-- `np.clip(a, a_min, a_max)` on scalars. -/
def np_clip (a lo hi : ℚ) : ℚ := min (max a lo) hi

/-- `AtariProcessor.process_reward`: `np.clip(reward, -1., 1.)`. -/
def process_reward (reward : ℚ) : ℚ := np_clip reward (-1) 1

/-- `AtariProcessor.finish`: when `show` is set it calls
`self.writer.release()`, which raises `AttributeError` when the attribute
was never set and raises on the Python value `None`
(`'NoneType' object has no attribute 'release'`); with `show=False` it
does nothing. -/
def AtariProcessor.finish (p : AtariProcessor) : Option AtariProcessor :=
  if p.«show» then
    match p.writer with
    | .absent => none
    | .noneYet => none
    | .created w => some { p with writer := .created w.release }
  else some p

/-- States reachable through `AtariProcessor.init`: when `show` is set,
the `out_file` and `writer` attributes exist. -/
def AtariProcessor.wellFormed (p : AtariProcessor) : Prop :=
  p.«show» = true → (p.out_file ≠ none ∧ p.writer ≠ .absent)

/-- The command-line arguments accepted by the script's `argparse`
configuration. -/
structure Args where
  mode : String
  env_name : String
  weights : Option String
  output_dir : Option String
  «show» : Bool
  deriving DecidableEq, Repr

/-- Python truthiness of an optional string: `None` and `""` are falsy. -/
def pyTruthyStr : Option String → Bool
  | none => false
  | some s => s != ""

/-- The weights path derived in test mode before the `--weights` override:
`'dqn_{env}_weights.h5f'`, prefixed with `output_dir` when given. -/
def derivedWeightsPath (a : Args) : String :=
  let weights_filename := "dqn_" ++ a.env_name ++ "_weights.h5f"
  match a.output_dir with
  | some d => os_path_join d weights_filename
  | none => weights_filename

/-- The observable effect of the `elif args.mode == 'test':` branch:
which weights file is loaded, and the fixed evaluation call
`dqn.test(env, nb_episodes=10, visualize=False)`. -/
structure TestRun where
  weights_loaded : String
  nb_episodes : Nat
  visualize : Bool
  deriving DecidableEq, Repr

/-- The test-mode dispatch: derive the weights path, override it with
`args.weights` when that value is truthy (`if args.weights:`), load it,
and run 10 evaluation episodes. -/
def testDispatch (a : Args) : TestRun :=
  let weights_filename := derivedWeightsPath a
  let weights_filename :=
    if pyTruthyStr a.weights then a.weights.getD "" else weights_filename
  { weights_loaded := weights_filename, nb_episodes := 10, visualize := false }

/-- The GPU options set on the fallback (`except Exception`) path of the
session configuration at the top of the script. -/
structure GPUOptions where
  allow_growth : Bool
  per_process_gpu_memory_fraction : ℚ
  deriving DecidableEq, Repr

/-- The fallback configuration: `config.gpu_options.allow_growth = True`
and `config.gpu_options.per_process_gpu_memory_fraction = 2`. -/
def fallbackGpuOptions : GPUOptions :=
  { allow_growth := true, per_process_gpu_memory_fraction := 2 }

/-! ### Helper lemmas -/

theorem videoStep_show_false (p : AtariProcessor) (img : PILImage)
    (hs : p.«show» = false) : p.videoStep img = some p := by
  unfold AtariProcessor.videoStep
  rw [hs]
  simp

theorem videoStep_noneYet (p : AtariProcessor) (img : PILImage) (f : String)
    (hs : p.«show» = true) (hw : p.writer = .noneYet) (ho : p.out_file = some f) :
    p.videoStep img = some { p with
      writer := .created (cv2_VideoWriter f VideoWriter_fourcc 25 (640, 480)).write
      writersCreated := p.writersCreated + 1 } := by
  unfold AtariProcessor.videoStep
  rw [hs, hw, ho]
  simp
  rfl

theorem videoStep_created (p : AtariProcessor) (img : PILImage) (w : VideoWriter)
    (hs : p.«show» = true) (hw : p.writer = .created w) :
    p.videoStep img = some { p with writer := .created w.write } := by
  unfold AtariProcessor.videoStep
  rw [hs, hw]
  simp

theorem videoStep_isSome (p : AtariProcessor) (img : PILImage)
    (hwf : p.wellFormed) : ∃ p', p.videoStep img = some p' := by
  cases hs : p.«show» with
  | false => exact ⟨p, videoStep_show_false p img hs⟩
  | true =>
    obtain ⟨hof, hwr⟩ := hwf hs
    cases hw : p.writer with
    | absent => exact absurd hw hwr
    | noneYet =>
      cases ho : p.out_file with
      | none => exact absurd ho hof
      | some f => exact ⟨_, videoStep_noneYet p img f hs hw ho⟩
    | created w => exact ⟨_, videoStep_created p img w hs hw⟩

theorem process_observation_eq (p p' : AtariProcessor) (obs : NDArray)
    (hnd : obs.ndim = 3)
    (hv : p.videoStep (Image.fromarray obs) = some p') :
    p.process_observation obs =
      some (p', (npArrayOfL ((Image.fromarray obs).resize INPUT_SHAPE).convertL).astypeUint8) := by
  unfold AtariProcessor.process_observation
  rw [if_pos hnd]
  simp only [hv]
  rfl

theorem process_observation_bad_ndim (p : AtariProcessor) (obs : NDArray)
    (hnd : obs.ndim ≠ 3) : p.process_observation obs = none := by
  unfold AtariProcessor.process_observation
  rw [if_neg hnd]

/-! ### Concrete instances used by witnesses -/

/-- A processor constructed with `show=False` (`AtariProcessor(False, None)`). -/
def procShowOff : AtariProcessor :=
  { «show» := false, out_file := none, writer := .absent, writersCreated := 0 }

/-- The playback file path for `output_dir = "out"`. -/
def outFileEx : String := os_path_join "out" "atari_playback.avi"

/-- A processor constructed with `show=True, output_dir="out"`. -/
def procShowOn : AtariProcessor :=
  { «show» := true, out_file := some outFileEx, writer := .noneYet
    writersCreated := 0 }

/-- A raw Atari observation: a 210x160x3 frame of constant value 128. -/
def obsEx : NDArray := { shape := [210, 160, 3], pix := fun _ => 128 }

/-- A 2-axis array, violating the `ndim == 3` contract. -/
def obsBad : NDArray := { shape := [84, 84], pix := fun _ => 0 }

/-! ### Claims -/

/-- Claim C1: for every observation with exactly 3 axes, `process_observation`
returns a grid of shape exactly 84x84 whose values all lie in [0, 255]. -/
theorem C1_processed_frame_shape_and_range (p : AtariProcessor) (obs : NDArray)
    (hnd : obs.ndim = 3) (hwf : p.wellFormed) :
    ∃ p' out, p.process_observation obs = some (p', out) ∧
      out.shape = [84, 84] ∧ ∀ idx, out.pix idx ≤ 255 := by
  obtain ⟨p', hp'⟩ := videoStep_isSome p (Image.fromarray obs) hwf
  refine ⟨p', _, process_observation_eq p p' obs hnd hp', rfl, fun idx => ?_⟩
  simp only [NDArray.astypeUint8]
  omega

/-- Witness for C1: `AtariProcessor(show=False)` with a concrete 210x160x3
observation. -/
theorem C1_witness :
    obsEx.ndim = 3 ∧
      (∃ p' out, procShowOff.process_observation obsEx = some (p', out) ∧
        out.shape = [84, 84] ∧ ∀ idx, out.pix idx ≤ 255) :=
  ⟨rfl, C1_processed_frame_shape_and_range procShowOff obsEx rfl
    (fun h => Bool.noConfusion h)⟩

/-- Claim C2: `process_reward` always lands in [-1, 1], is the identity on
[-1, 1], and is idempotent. -/
theorem C2_process_reward_clipping (r : ℚ) :
    (-1 ≤ process_reward r ∧ process_reward r ≤ 1) ∧
    (-1 ≤ r → r ≤ 1 → process_reward r = r) ∧
    process_reward (process_reward r) = process_reward r := by
  unfold process_reward np_clip
  have h1 : (-1 : ℚ) ≤ min (max r (-1)) 1 :=
    le_min (le_max_right r (-1)) (by norm_num)
  have h2 : min (max r (-1)) 1 ≤ (1 : ℚ) := min_le_right _ _
  refine ⟨⟨h1, h2⟩, ?_, ?_⟩
  · intro ha hb
    rw [max_eq_left ha, min_eq_left hb]
  · rw [max_eq_left h1, min_eq_left h2]

/-- Witness for C2 at the concrete reward 2. -/
theorem C2_witness :
    ((-1 ≤ process_reward 2 ∧ process_reward 2 ≤ 1) ∧
      (-1 ≤ (2 : ℚ) → (2 : ℚ) ≤ 1 → process_reward 2 = 2) ∧
      process_reward (process_reward 2) = process_reward 2) :=
  C2_process_reward_clipping 2

/-- Claim C3: on a batch of 8-bit values, `process_state_batch` yields values
in [0, 1], each equal to the original value divided by 255 exactly (real
arithmetic modelled exactly by rationals). -/
theorem C3_state_batch_normalization (batch : NDArray)
    (hb : ∀ idx, batch.pix idx ≤ 255) :
    ∀ idx, 0 ≤ (process_state_batch batch).pix idx ∧
      (process_state_batch batch).pix idx ≤ 1 ∧
      (process_state_batch batch).pix idx = (batch.pix idx : ℚ) / 255 := by
  intro idx
  unfold process_state_batch
  refine ⟨by positivity, ?_, rfl⟩
  rw [div_le_one (by norm_num)]
  exact_mod_cast hb idx

/-- A concrete uint8 batch of constant value 128. -/
def batchEx : NDArray := { shape := [1, 4, 84, 84], pix := fun _ => 128 }

/-- Witness for C3 on the constant-128 batch at index [0,0,0,0]. -/
theorem C3_witness :
    (∀ idx, batchEx.pix idx ≤ 255) ∧
      (0 ≤ (process_state_batch batchEx).pix [0, 0, 0, 0] ∧
        (process_state_batch batchEx).pix [0, 0, 0, 0] ≤ 1 ∧
        (process_state_batch batchEx).pix [0, 0, 0, 0] =
          (batchEx.pix [0, 0, 0, 0] : ℚ) / 255) :=
  ⟨fun _ => by norm_num [batchEx],
   C3_state_batch_normalization batchEx (fun _ => by norm_num [batchEx])
     [0, 0, 0, 0]⟩

/-- Claim C4: `process_observation` fails fast (assertion) exactly on inputs
whose number of axes is not 3; with 3 axes the entry assertion passes and a
value is returned. -/
theorem C4_ndim_assertion (p : AtariProcessor) (obs : NDArray)
    (hwf : p.wellFormed) :
    p.process_observation obs = none ↔ obs.ndim ≠ 3 := by
  constructor
  · intro h hnd
    obtain ⟨p', hp'⟩ := videoStep_isSome p (Image.fromarray obs) hwf
    rw [process_observation_eq p p' obs hnd hp'] at h
    exact Option.noConfusion h
  · exact process_observation_bad_ndim p obs

/-- Witness for C4: a 2-axis array makes `process_observation` fail. -/
theorem C4_witness :
    procShowOff.process_observation obsBad = none ↔ obsBad.ndim ≠ 3 :=
  C4_ndim_assertion procShowOff obsBad (fun h => Bool.noConfusion h)

/-- Claim C6: with `show=False`, `finish` succeeds without touching any
writer and leaves the processor state unchanged. -/
theorem C6_finish_show_false_noop (p : AtariProcessor)
    (hs : p.«show» = false) : p.finish = some p := by
  unfold AtariProcessor.finish
  rw [hs]
  simp

/-- Witness for C6 on `AtariProcessor(show=False)`. -/
theorem C6_witness : procShowOff.finish = some procShowOff :=
  C6_finish_show_false_noop procShowOff rfl

/-- Claim C8: the fallback session configuration sets the per-process GPU
memory fraction to a value strictly greater than 1. -/
theorem C8_gpu_fraction_above_one :
    1 < fallbackGpuOptions.per_process_gpu_memory_fraction := by
  norm_num [fallbackGpuOptions]

/-- Claim C9: with `show=True`, calling `finish` before any
`process_observation` fails (`self.writer` is still `None`, so
`self.writer.release()` raises). -/
theorem C9_finish_before_first_frame_raises (d : String) (p : AtariProcessor)
    (h : AtariProcessor.init true (some d) = some p) : p.finish = none := by
  have h' := Option.some.inj h
  rw [← h']
  rfl

/-- Witness for C9 with `output_dir = "out"`. -/
theorem C9_witness :
    AtariProcessor.init true (some "out") = some procShowOn ∧
      procShowOn.finish = none :=
  ⟨rfl, C9_finish_before_first_frame_raises "out" procShowOn rfl⟩

/-- Claim C10: construction with `show=True, output_dir=None` fails
(`os.path.join(None, ...)` raises), while with `show=False` construction
succeeds for every `output_dir` and neither `out_file` nor `writer` is ever
set. -/
theorem C10_constructor_output_dir :
    AtariProcessor.init true none = none ∧
    ∀ output_dir, ∃ p, AtariProcessor.init false output_dir = some p ∧
      p.out_file = none ∧ p.writer = .absent := by
  exact ⟨rfl, fun _ => ⟨_, rfl, rfl, rfl⟩⟩

/-- Claim C5: for `show=True`, the writer is absent before the first
`process_observation`, the first call creates exactly one writer and opens
it, every later call reuses that same writer (same construction parameters,
no new creation), `finish` closes it, and a closed writer is never
reopened. -/
theorem C5_writer_lifecycle (d : String) (p0 : AtariProcessor)
    (h0 : AtariProcessor.init true (some d) = some p0) :
    (p0.writer = .noneYet ∧ p0.writersCreated = 0) ∧
    (∀ obs p1 out, p0.process_observation obs = some (p1, out) →
        p1.writersCreated = 1 ∧
        ∃ w, p1.writer = .created w ∧ w.released = false) ∧
    (∀ (p : AtariProcessor) (w : VideoWriter) (obs : NDArray)
        (p' : AtariProcessor) (out : NDArray),
        p.«show» = true → p.writer = .created w →
        p.process_observation obs = some (p', out) →
        p'.writersCreated = p.writersCreated ∧
        p'.writer = .created w.write ∧
        w.write.filename = w.filename ∧ w.write.fourcc = w.fourcc ∧
        w.write.fps = w.fps ∧ w.write.frameSize = w.frameSize) ∧
    (∀ (p : AtariProcessor) (w : VideoWriter) (p' : AtariProcessor),
        p.«show» = true → p.writer = .created w → p.finish = some p' →
        p'.writer = .created { w with released := true }) ∧
    (∀ w : VideoWriter, w.released = true → w.write = w) := by
  have hp0 : p0 = { «show» := true,
                    out_file := some (os_path_join d "atari_playback.avi"),
                    writer := .noneYet,
                    writersCreated := 0 } := (Option.some.inj h0).symm
  refine ⟨?_, ?_, ?_, ?_, ?_⟩
  · rw [hp0]
    exact ⟨rfl, rfl⟩
  · intro obs p1 out hstep
    by_cases hnd : obs.ndim = 3
    · have hv := videoStep_noneYet p0 (Image.fromarray obs)
        (os_path_join d "atari_playback.avi")
        (by rw [hp0]) (by rw [hp0]) (by rw [hp0])
      rw [process_observation_eq p0 _ obs hnd hv] at hstep
      have h1 := Prod.mk.inj (Option.some.inj hstep)
      rw [← h1.1, hp0]
      exact ⟨rfl, _, rfl, rfl⟩
    · rw [process_observation_bad_ndim p0 obs hnd] at hstep
      exact Option.noConfusion hstep
  · intro p w obs p' out hs hw hstep
    by_cases hnd : obs.ndim = 3
    · have hv := videoStep_created p (Image.fromarray obs) w hs hw
      rw [process_observation_eq p _ obs hnd hv] at hstep
      have h1 := Prod.mk.inj (Option.some.inj hstep)
      rw [← h1.1]
      refine ⟨rfl, rfl, ?_, ?_, ?_, ?_⟩ <;>
        · unfold VideoWriter.write
          split <;> rfl
    · rw [process_observation_bad_ndim p obs hnd] at hstep
      exact Option.noConfusion hstep
  · intro p w p' hs hw hfin
    unfold AtariProcessor.finish at hfin
    rw [hs] at hfin
    simp only [if_true] at hfin
    rw [hw] at hfin
    rw [← Option.some.inj hfin]
    rfl
  · intro w hrel
    unfold VideoWriter.write
    rw [hrel]
    simp

/-- The processor state after the first processed observation with
`show=True, output_dir="out"`: one writer, open, one frame written. -/
def p1Ex : AtariProcessor :=
  { «show» := true
    out_file := some outFileEx
    writer := .created { filename := outFileEx
                         fourcc := VideoWriter_fourcc
                         fps := 25
                         frameSize := (640, 480)
                         frames := 1
                         released := false }
    writersCreated := 1 }

/-- The processed frame produced from `obsEx`. -/
def outEx : NDArray :=
  (npArrayOfL ((Image.fromarray obsEx).resize INPUT_SHAPE).convertL).astypeUint8

/-- Witness for C5: a concrete `show=True` run over one observation. -/
theorem C5_witness :
    AtariProcessor.init true (some "out") = some procShowOn ∧
      (procShowOn.writer = .noneYet ∧ procShowOn.writersCreated = 0) ∧
      procShowOn.process_observation obsEx = some (p1Ex, outEx) ∧
      p1Ex.writersCreated = 1 ∧
      (∃ w, p1Ex.writer = .created w ∧ w.released = false) :=
  ⟨rfl, (C5_writer_lifecycle "out" procShowOn rfl).1, rfl,
   (C5_writer_lifecycle "out" procShowOn rfl).2.1 obsEx p1Ex outEx rfl⟩

/-- Test-mode arguments with `--weights` supplied as the empty string. -/
def argsTruthyEx : Args :=
  { mode := "test"
    env_name := "BreakoutDeterministic-v4"
    weights := some ""
    output_dir := none
    «show» := false }

/-- Claim C7 counterexample: with `--weights` supplied as the empty string,
the dispatch does not load the supplied path (the `if args.weights:`
truthiness test rejects it) and loads the derived path instead. -/
theorem C7_counterexample :
    argsTruthyEx.weights = some "" ∧
    (testDispatch argsTruthyEx).weights_loaded ≠ "" ∧
    (testDispatch argsTruthyEx).weights_loaded =
      "dqn_BreakoutDeterministic-v4_weights.h5f" := by
  refine ⟨rfl, ?_, by rfl⟩
  decide

/-- Claim C7 (amended): in test mode the driver loads weights from the
derived path (formed from the environment name, prefixed with `output_dir`
when given), except that when `--weights` is supplied with a non-empty
value that path is used instead, and runs exactly 10 evaluation
episodes. -/
theorem C7_test_dispatch (a : Args) :
    (testDispatch a).nb_episodes = 10 ∧
    (testDispatch a).visualize = false ∧
    (∀ w : String, a.weights = some w → w ≠ "" →
        (testDispatch a).weights_loaded = w) ∧
    ((a.weights = none ∨ a.weights = some "") →
        (testDispatch a).weights_loaded = derivedWeightsPath a) ∧
    (a.output_dir = none →
        derivedWeightsPath a = "dqn_" ++ a.env_name ++ "_weights.h5f") ∧
    (∀ dir : String, a.output_dir = some dir →
        derivedWeightsPath a =
          os_path_join dir ("dqn_" ++ a.env_name ++ "_weights.h5f")) := by
  refine ⟨rfl, rfl, ?_, ?_, ?_, ?_⟩
  · intro w hw hne
    simp only [testDispatch, hw, pyTruthyStr]
    simp [hne]
  · intro h
    rcases h with h | h <;>
      simp only [testDispatch, h, pyTruthyStr] <;> simp
  · intro h
    simp only [derivedWeightsPath, h]
  · intro dir h
    simp only [derivedWeightsPath, h]

/-- Test-mode arguments with a non-empty `--weights` override. -/
def argsEx : Args :=
  { mode := "test"
    env_name := "Breakout-v0"
    weights := some "custom.h5f"
    output_dir := some "out2"
    «show» := false }

/-- Witness for C7 on a concrete non-empty `--weights` value. -/
theorem C7_witness :
    argsEx.weights = some "custom.h5f" ∧
      (testDispatch argsEx).nb_episodes = 10 ∧
      (testDispatch argsEx).weights_loaded = "custom.h5f" :=
  ⟨rfl, (C7_test_dispatch argsEx).1,
   (C7_test_dispatch argsEx).2.2.1 "custom.h5f" rfl (by decide)⟩
